import Mathlib

/-!
Verification development for the webull Rust client library.

The definitions below are a shallow embedding of the parts of the source
relevant to the session manager, order gateway and streaming subscription
engine: `src/stream.rs` (StreamConn), `src/client.rs` (LiveWebullClient,
PaperWebullClient) and `src/models.rs` (order models and builder).

Modelling conventions:
- Rust `f64` price/quantity values are modelled as `Rat`; the embedded code
  only stores, copies and compares these values, it performs no float
  arithmetic, so the representation is immaterial to the properties proved.
- `serde_json::Value` is modelled by the inductive `Json` below; integer
  JSON numbers (`as_i64`) are the `int` constructor, float numbers `num`.
- The external `serde_json` string parser is an abstract parameter
  `parse : String -> Option Json` wherever the source calls
  `serde_json::from_str` / `from_slice` on wire input.
- HTTP and MQTT transports are external; functions are embedded up to the
  point where the request is handed to the transport, and transport
  acceptance is an abstract `accept : String -> Bool` parameter or an
  explicit boolean input (`serverSuccess`).
-/

namespace Webull

/-- Model of `serde_json::Value`.  `int` is a Number that `as_i64` accepts,
`num` a float Number (for which `as_i64` returns None). -/
inductive Json where
  | null : Json
  | bool : Bool → Json
  | int : Int → Json
  | num : Rat → Json
  | str : String → Json
  | arr : List Json → Json
  | obj : List (String × Json) → Json

/-- `Value::get(key)` on an object: first binding with the given key. -/
def Json.get : Json → String → Option Json
  | .obj fields, k => fields.lookup k
  | _, _ => none

/-- `Value::as_str`. -/
def Json.as_str : Json → Option String
  | .str s => some s
  | _ => none

/-- `Value::as_i64`: Some only for integer numbers. -/
def Json.as_i64 : Json → Option Int
  | .int n => some n
  | _ => none

/-- `Value::as_bool`. -/
def Json.as_bool : Json → Option Bool
  | .bool b => some b
  | _ => none

/-- `Value::as_array`. -/
def Json.as_array : Json → Option (List Json)
  | .arr xs => some xs
  | _ => none

/-- The subset of the `WebullError` enum (src/error.rs) reachable from the
embedded functions.  Message payloads are kept verbatim where the source
builds them from literals; messages produced by external libraries
(serde, reqwest, rumqttc) are abstracted. -/
inductive WebullError where
  | AuthenticationError : String → WebullError
  | SessionExpired : WebullError
  | InvalidParameter : String → WebullError
  | ApiError : String → WebullError
  | TradeTokenNotAvailable : WebullError
  | AccountNotFound : WebullError
  | WebSocketError : String → WebullError
  | MqttError : String → WebullError
  | ParseError : String → WebullError
  | JsonError : WebullError
deriving DecidableEq

/-- `OrderAction` (src/models.rs). -/
inductive OrderAction where
  | Buy : OrderAction
  | Sell : OrderAction
deriving DecidableEq

/-- `OrderType` (src/models.rs). -/
inductive OrderType where
  | Market : OrderType
  | Limit : OrderType
  | Stop : OrderType
  | StopLimit : OrderType
deriving DecidableEq

/-- `OrderStatus` (src/models.rs lines 561-579): the fixed normalized
order-state enumeration. -/
inductive OrderStatus where
  | Working : OrderStatus
  | Pending : OrderStatus
  | Submitted : OrderStatus
  | PartialFilled : OrderStatus
  | Filled : OrderStatus
  | Cancelled : OrderStatus
  | Failed : OrderStatus
  | Rejected : OrderStatus
deriving DecidableEq

/-- `TimeInForce` (src/models.rs). -/
inductive TimeInForce where
  | Day : TimeInForce
  | GoodTillCancel : TimeInForce
  | ImmediateOrCancel : TimeInForce
  | FillOrKill : TimeInForce
deriving DecidableEq

/-- The serde-derived deserializer for `OrderStatus`: each variant carries a
`serde(rename = ...)` attribute, so exactly the listed wire strings are
accepted and any other string is a deserialization error (src/models.rs
lines 560-579).  This is the normalization path used when an `Order` is
decoded by serde, e.g. by `LiveWebullClient::get_orders` via
`serde_json::from_value::<Vec<Order>>` on the accounts openOrders field. -/
def orderStatusFromWire : String → Option OrderStatus
  | "Working" => some .Working
  | "Pending" => some .Pending
  | "Submitted" => some .Submitted
  | "PartialFilled" => some .PartialFilled
  | "Filled" => some .Filled
  | "Cancelled" => some .Cancelled
  | "Failed" => some .Failed
  | "Rejected" => some .Rejected
  | _ => none

/-- Digits of a decimal-digit character list, `none` on a non-digit. -/
def digitsVal (cs : List Char) : Option Nat :=
  cs.foldlM (fun a c => if c.isDigit then some (a * 10 + (c.toNat - 48)) else none) 0

/-- Model of `str::parse::<f64>()` restricted to plain decimal notation
(optional leading minus, digits, optional fractional part); the embedded
code only feeds it decimal strings from the wire.  Exotic float syntax
(exponents, inf, nan) is outside the wire format and not modelled. -/
def parseDecimal (s : String) : Option Rat :=
  let (neg, body) := if s.startsWith "-" then (true, s.drop 1) else (false, s)
  let signed : Rat → Rat := fun q => if neg then -q else q
  match body.splitOn "." with
  | [ip] =>
      if ip.isEmpty then none
      else (digitsVal ip.data).map (fun n => signed n)
  | [ip, fp] =>
      if ip.isEmpty && fp.isEmpty then none
      else
        match digitsVal ip.data, digitsVal fp.data with
        | some i, some f =>
            some (signed ((i : Rat) + (f : Rat) / ((10 : Rat) ^ fp.length)))
        | _, _ => none
  | _ => none

/-- The fields of the `Ticker` struct (src/models.rs) that serde requires:
`tickerId` (i64), `disSymbol` and `name` have no `serde(default)` attribute,
so deserialization fails when one of them is absent.  The remaining fields
all carry `serde(default)` and cannot fail by absence; they are not tracked
because nothing in the embedded code reads them. -/
structure Ticker where
  ticker_id : Int
  symbol : String
  name : String
deriving DecidableEq

/-- `serde_json::from_value::<Ticker>`: requires the three non-defaulted
fields with the renamed wire keys (`tickerId`, `disSymbol`, `name`). -/
def parseTicker (v : Json) : Except WebullError Ticker :=
  match (v.get "tickerId").bind Json.as_i64,
        (v.get "disSymbol").bind Json.as_str,
        (v.get "name").bind Json.as_str with
  | some tid, some sym, some nm => .ok { ticker_id := tid, symbol := sym, name := nm }
  | _, _, _ => .error .JsonError

/-- The `Order` value constructed by `PaperWebullClient::parse_paper_order`
(src/client.rs lines 1135-1151).  Timestamps are the chrono
`DateTime<Utc>` values modelled as unix milliseconds. -/
structure Order where
  order_id : String
  combo_id : Option String
  ticker : Ticker
  action : OrderAction
  order_type : OrderType
  status : OrderStatus
  time_in_force : TimeInForce
  quantity : Rat
  filled_quantity : Rat
  avg_fill_price : Option Rat
  limit_price : Option Rat
  stop_price : Option Rat
  placed_time : Int
  filled_time : Option Int
  outside_regular_trading_hour : Bool
deriving DecidableEq

/-- The status normalization match inside `parse_paper_order`
(src/client.rs lines 1078-1086), verbatim: the argument is
`order_val.get("status").and_then(|v| v.as_str())`, and the final arm is
the catch-all `_ => OrderStatus::Working`. -/
def parsePaperStatusMatch : Option String → OrderStatus
  | some "Working" => .Working
  | some "Filled" => .Filled
  | some "Canceled" => .Cancelled
  | some "Cancelled" => .Cancelled
  | some "PartiallyFilled" => .PartialFilled
  | some "Partial Filled" => .PartialFilled
  | some "Pending" => .Pending
  | some "Failed" => .Failed
  | _ => .Working

/-- `PaperWebullClient::parse_paper_order` (src/client.rs lines 1051-1152).
`now` is the value of `Utc::now()` used as the fallback timestamp;
`DateTime::from_timestamp_millis(ts).unwrap_or(now)` is modelled as `ts`
(an out-of-range chrono timestamp cannot arise from realistic wire data
and is not modelled). -/
def parse_paper_order (now : Int) (order_val : Json) : Except WebullError Order :=
  match (order_val.get "orderId").bind Json.as_i64 with
  | none => .error (.ParseError "Missing orderId")
  | some oid =>
  match order_val.get "ticker" with
  | none => .error (.ParseError "Missing ticker")
  | some ticker_data =>
  match parseTicker ticker_data with
  | .error e => .error e
  | .ok ticker =>
  match
    (match (order_val.get "action").bind Json.as_str with
     | some "BUY" => Except.ok OrderAction.Buy
     | some "SELL" => Except.ok OrderAction.Sell
     | _ => Except.error (WebullError.ParseError "Invalid action")) with
  | .error e => .error e
  | .ok action =>
  match
    (match (order_val.get "orderType").bind Json.as_str with
     | some "MKT" => Except.ok OrderType.Market
     | some "LMT" => Except.ok OrderType.Limit
     | some "STP" => Except.ok OrderType.Stop
     | some "STP LMT" => Except.ok OrderType.StopLimit
     | _ => Except.error (WebullError.ParseError "Invalid order type")) with
  | .error e => .error e
  | .ok order_type =>
  let status := parsePaperStatusMatch ((order_val.get "status").bind Json.as_str)
  let time_in_force :=
    match (order_val.get "timeInForce").bind Json.as_str with
    | some "DAY" => TimeInForce.Day
    | some "GTC" => TimeInForce.GoodTillCancel
    | some "IOC" => TimeInForce.ImmediateOrCancel
    | some "FOK" => TimeInForce.FillOrKill
    | _ => TimeInForce.Day
  let quantity :=
    (((order_val.get "totalQuantity").bind Json.as_str).bind parseDecimal).getD 0
  let filled_quantity :=
    (((order_val.get "filledQuantity").bind Json.as_str).bind parseDecimal).getD 0
  let limit_price :=
    ((order_val.get "lmtPrice").bind Json.as_str).bind parseDecimal
  let stop_price :=
    ((order_val.get "auxPrice").bind Json.as_str).bind parseDecimal
  let avg_fill_price :=
    ((order_val.get "avgFilledPrice").bind Json.as_str).bind parseDecimal
  let placed_time :=
    match (order_val.get "createTime0").bind Json.as_i64 with
    | some ts => ts
    | none => now
  let filled_time :=
    match (order_val.get "filledTime0").bind Json.as_i64 with
    | some ts => some ts
    | none => none
  let outside_regular_trading_hour :=
    ((order_val.get "outsideRegularTradingHour").bind Json.as_bool).getD false
  .ok {
    order_id := toString oid
    combo_id := ((order_val.get "comboId").bind Json.as_str)
    ticker := ticker
    action := action
    order_type := order_type
    status := status
    time_in_force := time_in_force
    quantity := quantity
    filled_quantity := filled_quantity
    avg_fill_price := avg_fill_price
    limit_price := limit_price
    stop_price := stop_price
    placed_time := placed_time
    filled_time := filled_time
    outside_regular_trading_hour := outside_regular_trading_hour
  }

/-- The client-side filter of `PaperWebullClient::get_orders`
(src/client.rs lines 1032-1042): an order-history entry passes when its
`status` field is the string `Working`. -/
def isWorkingEntry (order_val : Json) : Bool :=
  ((order_val.get "status").bind Json.as_str) == some "Working"

/-- `PaperWebullClient::get_orders` (src/client.rs lines 1023-1048) after
the HTTP fetch: `history` is the JSON body returned by
`get_history_orders("All", page_size)`.  Entries are filtered client-side
for wire status `Working`, each surviving entry is run through
`parse_paper_order`, and entries that fail to parse are skipped
(`if let Ok(order) = ...`). -/
def paper_get_orders (now : Int) (history : Json) : List Order :=
  match history.as_array with
  | some orders_array =>
      orders_array.filterMap (fun order_val =>
        if isWorkingEntry order_val then (parse_paper_order now order_val).toOption
        else none)
  | none => []

/-- `PlaceOrderRequest` (src/models.rs). -/
structure PlaceOrderRequest where
  ticker_id : Int
  action : OrderAction
  order_type : OrderType
  time_in_force : TimeInForce
  quantity : Rat
  limit_price : Option Rat
  stop_price : Option Rat
  outside_regular_trading_hour : Bool
  serial_id : Option String
  combo_type : Option String
deriving DecidableEq

/-- `PlaceOrderRequestBuilder` (src/models.rs lines 645-658): the mutable
builder state just before `build` is called. -/
structure PlaceOrderRequestBuilder where
  ticker_id : Option Int
  action : Option OrderAction
  order_type : OrderType
  time_in_force : TimeInForce
  quantity : Option Rat
  limit_price : Option Rat
  stop_price : Option Rat
  outside_regular_trading_hour : Bool
  serial_id : Option String
  combo_type : Option String
deriving DecidableEq

/-- `PlaceOrderRequestBuilder::build` (src/models.rs lines 758-805):
required-field checks followed by the order-type specific price
validation; error payloads are the literal strings of the source
(`format!("{:?} order requires limit_price", self.order_type)` renders as
`Limit order requires limit_price` in the only arm that uses it). -/
def PlaceOrderRequestBuilder.build (self : PlaceOrderRequestBuilder) :
    Except String PlaceOrderRequest :=
  match self.ticker_id with
  | none => .error "ticker_id is required"
  | some ticker_id =>
  match self.action with
  | none => .error "action is required"
  | some action =>
  match self.quantity with
  | none => .error "quantity is required"
  | some quantity =>
  match self.order_type with
  | .Limit =>
      if self.limit_price.isNone then
        .error "Limit order requires limit_price"
      else
        .ok {
          ticker_id := ticker_id, action := action,
          order_type := self.order_type, time_in_force := self.time_in_force,
          quantity := quantity, limit_price := self.limit_price,
          stop_price := self.stop_price,
          outside_regular_trading_hour := self.outside_regular_trading_hour,
          serial_id := self.serial_id, combo_type := self.combo_type }
  | .Stop =>
      if self.stop_price.isNone then
        .error "Stop order requires stop_price"
      else
        .ok {
          ticker_id := ticker_id, action := action,
          order_type := self.order_type, time_in_force := self.time_in_force,
          quantity := quantity, limit_price := self.limit_price,
          stop_price := self.stop_price,
          outside_regular_trading_hour := self.outside_regular_trading_hour,
          serial_id := self.serial_id, combo_type := self.combo_type }
  | .StopLimit =>
      if self.limit_price.isNone then
        .error "StopLimit order requires limit_price"
      else if self.stop_price.isNone then
        .error "StopLimit order requires stop_price"
      else
        .ok {
          ticker_id := ticker_id, action := action,
          order_type := self.order_type, time_in_force := self.time_in_force,
          quantity := quantity, limit_price := self.limit_price,
          stop_price := self.stop_price,
          outside_regular_trading_hour := self.outside_regular_trading_hour,
          serial_id := self.serial_id, combo_type := self.combo_type }
  | .Market =>
      .ok {
        ticker_id := ticker_id, action := action,
        order_type := self.order_type, time_in_force := self.time_in_force,
        quantity := quantity, limit_price := self.limit_price,
        stop_price := self.stop_price,
        outside_regular_trading_hour := self.outside_regular_trading_hour,
        serial_id := self.serial_id, combo_type := self.combo_type }

/-- The JSON payload (`order_data`) assembled by the place-order functions
before it is posted: the serialized request plus the fields the client adds
on top of it.  `comboType` is set only by the live variant; `lmtPrice` /
`auxPrice` are the duplicated price fields; `outsideRTH` records an
override of the `outsideRegularTradingHour` field. -/
structure OrderData where
  base : PlaceOrderRequest
  comboType : Option String
  serialId : Option String
  lmtPrice : Option Rat
  auxPrice : Option Rat
  outsideRTH : Option Bool
deriving DecidableEq

/-- `LiveWebullClient::place_order` (src/client.rs lines 520-601) up to the
HTTP POST: the `account_id` check comes first (`AccountNotFound`), then the
`trade_token` check (`TradeTokenNotAvailable`), then the payload is built.
`uuid` is the freshly generated serial id used when the request carries
none.  The returned pair is the payload and the `t_token` header content
(`build_req_headers` inserts the header only when a trade token is held). -/
def live_place_order (uuid : String) (account_id trade_token : Option String)
    (order : PlaceOrderRequest) : Except WebullError (OrderData × Option String) :=
  match account_id with
  | none => .error .AccountNotFound
  | some _ =>
  if trade_token.isNone then .error .TradeTokenNotAvailable
  else
    let serialId := match order.serial_id with
      | some s => some s
      | none => some uuid
    let data : OrderData :=
      match order.order_type with
      | .Market =>
          { base := order, comboType := some "NORMAL", serialId := serialId,
            lmtPrice := none, auxPrice := none, outsideRTH := some false }
      | .Limit =>
          { base := order, comboType := some "NORMAL", serialId := serialId,
            lmtPrice := order.limit_price, auxPrice := none, outsideRTH := none }
      | .Stop =>
          { base := order, comboType := some "NORMAL", serialId := serialId,
            lmtPrice := none, auxPrice := order.stop_price, outsideRTH := none }
      | .StopLimit =>
          { base := order, comboType := some "NORMAL", serialId := serialId,
            lmtPrice := order.limit_price, auxPrice := order.stop_price,
            outsideRTH := none }
    .ok (data, trade_token)

/-- `PaperWebullClient::place_order` (src/client.rs lines 931-994) up to the
HTTP POST: only the `paper_account_id` check gates the call
(`AccountNotFound`); there is no trade-token check - the `t_token` header
is simply included when a token happens to be held and omitted otherwise.
`lmtPrice` is added whenever the request carries a limit price, and market
orders get `outsideRegularTradingHour` forced to false. -/
def paper_place_order (uuid : String) (paper_account_id trade_token : Option String)
    (order : PlaceOrderRequest) : Except WebullError (OrderData × Option String) :=
  match paper_account_id with
  | none => .error .AccountNotFound
  | some _ =>
    let serialId := match order.serial_id with
      | some s => some s
      | none => some uuid
    let data : OrderData :=
      { base := order, comboType := none, serialId := serialId,
        lmtPrice := order.limit_price, auxPrice := none,
        outsideRTH := if order.order_type = .Market then some false else none }
    .ok (data, trade_token)

/-- The session fields of `LiveWebullClient` that `logout` clears
(src/client.rs lines 15-33 and 284-295). -/
structure SessionState where
  access_token : Option String
  refresh_token : Option String
  trade_token : Option String
  account_id : Option String
  token_expire : Option Int
  uuid : Option String
deriving DecidableEq

/-- `LiveWebullClient::logout` (src/client.rs lines 273-295) after the HTTP
POST: `serverSuccess` is `response.status().is_success()`.  The response
body is never read.  On a success status every session field is cleared
and `true` is returned; otherwise the session is left untouched and
`false` is returned. -/
def logout (serverSuccess : Bool) (st : SessionState) : SessionState × Bool :=
  if serverSuccess then
    ({ access_token := none, refresh_token := none, trade_token := none,
       account_id := none, token_expire := none, uuid := none }, true)
  else
    (st, false)

/-- `str::contains` for the nonempty literal patterns used by
`handle_message` (`platpush`, `wspush`, `ticker`): a nonempty pattern
occurs in `s` exactly when splitting on it yields more than one piece. -/
def strContainsPat (s pat : String) : Bool :=
  1 < (s.splitOn pat).length

/-- One entry per ticker in the `total_volume` map; `HashMap::insert`
replaces the value of an existing key and otherwise adds the entry. -/
def insertVolume : List (String × Int) → String → Int → List (String × Int)
  | [], k, v => [(k, v)]
  | (k1, v1) :: rest, k, v =>
      if k1 == k then (k1, v) :: rest else (k1, v1) :: insertVolume rest k v

/-- A callback invocation recorded by the dispatch model: the price or the
order callback applied to the parsed topic and payload. -/
inductive CallbackCall where
  | price : Json → Json → CallbackCall
  | order : Json → Json → CallbackCall

/-- `StreamConn::handle_message` (src/stream.rs lines 159-211).
`parse` abstracts `serde_json::from_str` / `from_slice`; `price_callback`
and `order_callback` say whether the respective callback is registered.
The result is the updated `total_volume` map and the list of callback
invocations made (empty on any parse failure - the function logs and
returns).  The function is total: a malformed frame cannot abort the
dispatch loop. -/
def handle_message (parse : String → Option Json) (topic : String)
    (payload : String) (price_callback order_callback : Bool)
    (total_volume : List (String × Int)) :
    List (String × Int) × List CallbackCall :=
  match parse topic with
  | none => (total_volume, [])
  | some topic_json =>
  match parse payload with
  | none => (total_volume, [])
  | some payload_json =>
  if strContainsPat topic "platpush" then
    (total_volume,
     if order_callback then [.order topic_json payload_json] else [])
  else if strContainsPat topic "wspush" || strContainsPat topic "ticker" then
    let vol :=
      match (topic_json.get "tickerId").bind Json.as_str with
      | some ticker_id =>
          match (payload_json.get "volume").bind Json.as_i64 with
          | some volume => insertVolume total_volume ticker_id volume
          | none => total_volume
      | none => total_volume
    (vol, if price_callback then [.price topic_json payload_json] else [])
  else
    (total_volume, [])

/-- The state of a `StreamConn` (src/stream.rs lines 41-49): `client` is
the presence of the `Option<AsyncClient>`, the rest are the shared
`subscriptions`, `is_connected` and `total_volume` cells. -/
structure StreamState where
  client : Bool
  subscriptions : List String
  is_connected : Bool
  total_volume : List (String × Int)
deriving DecidableEq

/-- The ticker topic key built by `subscribe_ticker` / `unsubscribe_ticker`
(src/stream.rs line 217): the JSON text with the ticker id and the numeric
topic-category code. -/
def mkTickerTopic (ticker_id : String) (topic_type : Int) : String :=
  "\x7b\"tickerId\":\"" ++ ticker_id ++ "\",\"type\":" ++ toString topic_type ++ "\x7d"

/-- The order-stream topic key built by `subscribe_orders`
(src/stream.rs line 237). -/
def mkOrderTopic (account_id : String) : String :=
  "\x7b\"secAccountId\":\"" ++ account_id ++ "\"\x7d"

/-- The per-category loop body of `StreamConn::subscribe_ticker`
(src/stream.rs lines 216-227): each topic key is sent to the transport
(`accept`), and pushed onto the subscription list only after the transport
accepted it; a transport failure aborts the loop with `MqttError`, keeping
the entries already pushed. -/
def subscribe_ticker_loop (accept : String → Bool) (ticker_id : String) :
    StreamState → List Int → Except WebullError Unit × StreamState
  | st, [] => (.ok (), st)
  | st, topic_type :: rest =>
      let topic := mkTickerTopic ticker_id topic_type
      if accept topic then
        subscribe_ticker_loop accept ticker_id
          { st with subscriptions := st.subscriptions ++ [topic] } rest
      else
        (.error (.MqttError "subscribe failed"), st)

/-- `StreamConn::subscribe_ticker` (src/stream.rs lines 214-232): errors
with `WebSocketError("Not connected")` when no transport client exists,
otherwise runs the per-category subscribe loop. -/
def subscribe_ticker (accept : String → Bool) (st : StreamState)
    (ticker_id : String) (topics : List Int) :
    Except WebullError Unit × StreamState :=
  if st.client then
    subscribe_ticker_loop accept ticker_id st topics
  else
    (.error (.WebSocketError "Not connected"), st)

/-- `StreamConn::subscribe_orders` (src/stream.rs lines 235-251). -/
def subscribe_orders (accept : String → Bool) (st : StreamState)
    (account_id : String) : Except WebullError Unit × StreamState :=
  if st.client then
    let topic := mkOrderTopic account_id
    if accept topic then
      (.ok (), { st with subscriptions := st.subscriptions ++ [topic] })
    else
      (.error (.MqttError "subscribe failed"), st)
  else
    (.error (.WebSocketError "Not connected"), st)

/-- The per-category loop body of `StreamConn::unsubscribe_ticker`
(src/stream.rs lines 256-267): `retain(|t| t != &topic)` drops every copy
of the key. -/
def unsubscribe_ticker_loop (accept : String → Bool) (ticker_id : String) :
    StreamState → List Int → Except WebullError Unit × StreamState
  | st, [] => (.ok (), st)
  | st, topic_type :: rest =>
      let topic := mkTickerTopic ticker_id topic_type
      if accept topic then
        unsubscribe_ticker_loop accept ticker_id
          { st with subscriptions := st.subscriptions.filter (fun t => t != topic) } rest
      else
        (.error (.MqttError "unsubscribe failed"), st)

/-- `StreamConn::unsubscribe_ticker` (src/stream.rs lines 254-272). -/
def unsubscribe_ticker (accept : String → Bool) (st : StreamState)
    (ticker_id : String) (topics : List Int) :
    Except WebullError Unit × StreamState :=
  if st.client then
    unsubscribe_ticker_loop accept ticker_id st topics
  else
    (.error (.WebSocketError "Not connected"), st)

/-- `StreamConn::unsubscribe_all` (src/stream.rs lines 275-287): iterates a
clone of the subscription list, sending an unsubscribe frame per entry, and
clears the list only after every frame was accepted; a transport failure
returns `MqttError` with the list untouched. -/
def unsubscribe_all (accept : String → Bool) (st : StreamState) :
    Except WebullError Unit × StreamState :=
  if st.client then
    if st.subscriptions.all accept then
      (.ok (), { st with subscriptions := [] })
    else
      (.error (.MqttError "unsubscribe failed"), st)
  else
    (.error (.WebSocketError "Not connected"), st)

/-- `StreamConn::get_subscriptions` (src/stream.rs lines 310-312). -/
def get_subscriptions (st : StreamState) : List String :=
  st.subscriptions

/-- The events the background event loop distinguishes
(src/stream.rs lines 107-140): connect acknowledgement, an inbound publish
frame, a disconnect packet, a polling error, and everything else. -/
inductive MqttEvent where
  | ConnAck : MqttEvent
  | Publish : String → String → MqttEvent
  | DisconnectPacket : MqttEvent
  | PollError : MqttEvent
  | Other : MqttEvent

/-- One iteration of the background event loop spawned by
`StreamConn::connect` (src/stream.rs lines 105-142).  The loop holds Arc
clones of `is_connected` and `total_volume` and the two callbacks; it never
touches `subscriptions` and never holds the client for (re)subscribing.
The third component collects the topics of any subscribe frame the loop
itself issues to the transport - no branch of the loop body calls
`client.subscribe`, so every branch contributes the empty list. -/
def event_loop_step (parse : String → Option Json)
    (price_callback order_callback : Bool) (st : StreamState) :
    MqttEvent → StreamState × List CallbackCall × List String
  | .ConnAck => ({ st with is_connected := true }, [], [])
  | .Publish topic payload =>
      let r :=
        handle_message parse topic payload price_callback order_callback
          st.total_volume
      ({ st with total_volume := r.1 }, r.2, [])
  | .DisconnectPacket => ({ st with is_connected := false }, [], [])
  | .PollError => ({ st with is_connected := false }, [], [])
  | .Other => (st, [], [])

/-- The background event loop run over a finite event trace, accumulating
the callback invocations and the subscribe frames issued by the loop. -/
def event_loop_run (parse : String → Option Json)
    (price_callback order_callback : Bool) :
    StreamState → List MqttEvent → StreamState × List CallbackCall × List String
  | st, [] => (st, [], [])
  | st, ev :: rest =>
      let s := event_loop_step parse price_callback order_callback st ev
      let t := event_loop_run parse price_callback order_callback s.1 rest
      (t.1, s.2.1 ++ t.2.1, s.2.2 ++ t.2.2)

/-! Concrete data used by counterexamples and witnesses. -/

/-- A ticker JSON object with the three serde-required fields. -/
def tickerJsonEx : Json :=
  .obj [("tickerId", .int 913256135), ("disSymbol", .str "AAPL"),
        ("name", .str "Apple Inc")]

/-- An order-history entry with wire status `Working`. -/
def workingOrderEx (oid : Int) : Json :=
  .obj [("orderId", .int oid), ("ticker", tickerJsonEx), ("action", .str "BUY"),
        ("orderType", .str "LMT"), ("status", .str "Working"),
        ("timeInForce", .str "DAY"), ("totalQuantity", .str "10"),
        ("lmtPrice", .str "150.25")]

/-- An order-history entry with wire status `Filled`. -/
def filledOrderEx : Json :=
  .obj [("orderId", .int 4), ("ticker", tickerJsonEx), ("action", .str "SELL"),
        ("orderType", .str "MKT"), ("status", .str "Filled")]

/-- A four-entry paper order history: three `Working` orders and one
`Filled` order. -/
def histArrEx : List Json :=
  [workingOrderEx 1, filledOrderEx, workingOrderEx 2, workingOrderEx 3]

/-- The JSON body of the order-history response for `histArrEx`. -/
def histEx : Json := .arr histArrEx

/-- A concrete market order request. -/
def orderEx : PlaceOrderRequest :=
  { ticker_id := 913256135, action := .Buy, order_type := .Market,
    time_in_force := .Day, quantity := 1, limit_price := none,
    stop_price := none, serial_id := none, combo_type := none,
    outside_regular_trading_hour := false }

/-- A fully populated session. -/
def sessionEx : SessionState :=
  { access_token := some "tok", refresh_token := some "ref",
    trade_token := some "tt", account_id := some "acct",
    token_expire := some 1700000000, uuid := some "uid" }

/-- A connected stream with no subscriptions yet. -/
def streamStEx : StreamState :=
  { client := true, subscriptions := [], is_connected := true,
    total_volume := [] }

/-! Helper lemmas about the subscription engine. -/

/-- One event-loop iteration issues no subscribe frames: no branch of the
loop body calls `client.subscribe`. -/
theorem event_loop_step_frames (parse : String → Option Json)
    (pc oc : Bool) (st : StreamState) (ev : MqttEvent) :
    (event_loop_step parse pc oc st ev).2.2 = [] := by
  cases ev <;> rfl

/-- One event-loop iteration never touches the subscription list. -/
theorem event_loop_step_subs (parse : String → Option Json)
    (pc oc : Bool) (st : StreamState) (ev : MqttEvent) :
    (event_loop_step parse pc oc st ev).1.subscriptions = st.subscriptions := by
  cases ev <;> rfl

/-- The event loop issues no subscribe frames over any event trace. -/
theorem event_loop_run_frames (parse : String → Option Json) (pc oc : Bool)
    (st : StreamState) (evs : List MqttEvent) :
    (event_loop_run parse pc oc st evs).2.2 = [] := by
  induction evs generalizing st with
  | nil => rfl
  | cons ev rest ih =>
      show ((event_loop_step parse pc oc st ev).2.2 ++ _) = []
      rw [event_loop_step_frames, ih]
      rfl

/-- The event loop leaves the subscription list unchanged over any event
trace. -/
theorem event_loop_run_subs (parse : String → Option Json) (pc oc : Bool)
    (st : StreamState) (evs : List MqttEvent) :
    (event_loop_run parse pc oc st evs).1.subscriptions = st.subscriptions := by
  induction evs generalizing st with
  | nil => rfl
  | cons ev rest ih =>
      show (event_loop_run parse pc oc
        (event_loop_step parse pc oc st ev).1 rest).1.subscriptions = _
      rw [ih, event_loop_step_subs]

/-- The subscribe loop with an all-accepting transport appends one topic
key per category and touches nothing else. -/
theorem subscribe_ticker_loop_accept_all (tid : String) (topics : List Int)
    (st : StreamState) :
    (subscribe_ticker_loop (fun _ => true) tid st topics).2 =
      { st with subscriptions :=
          st.subscriptions ++ topics.map (mkTickerTopic tid) } := by
  induction topics generalizing st with
  | nil =>
      show st = { st with subscriptions := st.subscriptions ++ [] }
      simp
  | cons t rest ih =>
      show (subscribe_ticker_loop (fun _ => true) tid
        { st with subscriptions :=
            st.subscriptions ++ [mkTickerTopic tid t] } rest).2 = _
      rw [ih]
      simp [List.append_assoc]

/-- Claim C1 (code divergence, at the failing input): after a successful
subscribe for topic X on a connected stream, a transport error and a
reconnect acknowledgement, the background loop issues no subscribe frame
at all - in particular none for X - while `get_subscriptions` keeps
reporting X before, during and after the disconnect/reconnect cycle.  The
first conjunct states, for every parser, callback configuration, state and
event trace, that the loop emits no subscribe frames and never changes the
subscription list; the second conjunct evaluates the loop on the concrete
reconnect trace. -/
theorem event_loop_reconnect_no_resubscribe :
    (∀ (parse : String → Option Json) (pc oc : Bool) (st : StreamState)
       (evs : List MqttEvent),
       (event_loop_run parse pc oc st evs).2.2 = [] ∧
       (event_loop_run parse pc oc st evs).1.subscriptions =
         st.subscriptions) ∧
    (get_subscriptions
        (subscribe_ticker (fun _ => true) streamStEx "913256135" [102]).2 =
       [mkTickerTopic "913256135" 102] ∧
     (event_loop_run (fun _ => none) true true
        (subscribe_ticker (fun _ => true) streamStEx "913256135" [102]).2
        [.PollError, .ConnAck]).2.2 = [] ∧
     get_subscriptions
        (event_loop_run (fun _ => none) true true
          (subscribe_ticker (fun _ => true) streamStEx "913256135" [102]).2
          [.PollError, .ConnAck]).1 =
       [mkTickerTopic "913256135" 102] ∧
     (event_loop_run (fun _ => none) true true
        (subscribe_ticker (fun _ => true) streamStEx "913256135" [102]).2
        [.PollError, .ConnAck]).1.is_connected = true) := by
  refine ⟨fun parse pc oc st evs =>
    ⟨event_loop_run_frames parse pc oc st evs,
     event_loop_run_subs parse pc oc st evs⟩, rfl, rfl, rfl, rfl⟩

/-- Claim C4 (counterexample): subscribing the same ticker id and category
list twice on a freshly connected stream leaves two copies of the topic
key in the subscription list, so the subscriptions after two identical
calls differ from the subscriptions after a single call. -/
theorem subscribe_twice_duplicates_cex :
    ((subscribe_ticker (fun _ => true)
        (subscribe_ticker (fun _ => true) streamStEx "913256135" [102]).2
        "913256135" [102]).2).subscriptions ≠
      ((subscribe_ticker (fun _ => true) streamStEx "913256135"
          [102]).2).subscriptions := by
  decide

/-- Claim C4 (amended): `subscribe_ticker` never checks for an already-held
key - over a transport that accepts every frame it unconditionally appends
one topic key per requested category, so calling it twice with the same
arguments appends the same keys a second time instead of being a no-op. -/
theorem subscribe_ticker_appends_duplicates (tid : String) (topics : List Int)
    (subs : List String) (conn : Bool) (vol : List (String × Int)) :
    ((subscribe_ticker (fun _ => true)
        ((subscribe_ticker (fun _ => true)
            (⟨true, subs, conn, vol⟩ : StreamState) tid topics).2)
        tid topics).2).subscriptions =
      subs ++ topics.map (mkTickerTopic tid) ++
        topics.map (mkTickerTopic tid) := by
  have h1 : (subscribe_ticker (fun _ => true)
      (⟨true, subs, conn, vol⟩ : StreamState) tid topics).2 =
      (⟨true, subs ++ topics.map (mkTickerTopic tid), conn, vol⟩ :
        StreamState) := by
    show (subscribe_ticker_loop (fun _ => true) tid
      (⟨true, subs, conn, vol⟩ : StreamState) topics).2 = _
    rw [subscribe_ticker_loop_accept_all]
  rw [h1]
  show ((subscribe_ticker_loop (fun _ => true) tid
    (⟨true, subs ++ topics.map (mkTickerTopic tid), conn, vol⟩ : StreamState)
    topics).2).subscriptions = _
  rw [subscribe_ticker_loop_accept_all]

/-- Claim C8: an inbound frame whose topic or whose payload fails to parse
as JSON is dropped: `handle_message` invokes neither callback and leaves
the volume aggregate untouched, and the remaining event trace - e.g. a
well-formed frame processed immediately afterwards - dispatches exactly as
if the malformed frame had never arrived.  (`handle_message` is a total
function, so a malformed frame cannot abort the dispatch loop.) -/
theorem handle_message_drops_malformed (parse : String → Option Json)
    (topic payload : String) (pc oc : Bool) (st : StreamState)
    (rest : List MqttEvent)
    (h : parse topic = none ∨ parse payload = none) :
    handle_message parse topic payload pc oc st.total_volume =
      (st.total_volume, []) ∧
    event_loop_run parse pc oc st (.Publish topic payload :: rest) =
      event_loop_run parse pc oc st rest := by
  have hm : handle_message parse topic payload pc oc st.total_volume =
      (st.total_volume, []) := by
    cases h with
    | inl h => unfold handle_message; rw [h]
    | inr h =>
        unfold handle_message
        cases hp : parse topic <;> simp [h]
  refine ⟨hm, ?_⟩
  simp only [event_loop_run, event_loop_step, hm, List.nil_append]

/-- Concrete parser used by the claim C8 witness: two well-known frames
parse, everything else is malformed. -/
def parseEx : String → Option Json := fun s =>
  if s = "platpush-orders" then some (.str "neworder")
  else if s = "orderpayload" then some (.str "filled")
  else none

/-- Witness for claim C8: at the malformed topic `oops` the hypothesis
holds and the conclusion follows by the theorem. -/
theorem handle_message_drops_malformed_witness :
    (parseEx "oops" = none ∨ parseEx "orderpayload" = none) ∧
    (handle_message parseEx "oops" "orderpayload" true true
        streamStEx.total_volume = (streamStEx.total_volume, []) ∧
     event_loop_run parseEx true true streamStEx
        [.Publish "oops" "orderpayload",
         .Publish "platpush-orders" "orderpayload"] =
       event_loop_run parseEx true true streamStEx
        [.Publish "platpush-orders" "orderpayload"]) :=
  ⟨Or.inl rfl,
   handle_message_drops_malformed parseEx "oops" "orderpayload" true true
     streamStEx [.Publish "platpush-orders" "orderpayload"] (Or.inl rfl)⟩

/-- Claim C10: when no transport client exists (connect was never called),
`subscribe_ticker`, `subscribe_orders`, `unsubscribe_ticker` and
`unsubscribe_all` each return `WebSocketError("Not connected")` and leave
the stream state - in particular the subscription list - unchanged. -/
theorem stream_ops_not_connected (accept : String → Bool)
    (subs : List String) (conn : Bool) (vol : List (String × Int))
    (tid aid : String) (topics : List Int) :
    subscribe_ticker accept (⟨false, subs, conn, vol⟩ : StreamState) tid
        topics =
      (.error (.WebSocketError "Not connected"), ⟨false, subs, conn, vol⟩) ∧
    subscribe_orders accept (⟨false, subs, conn, vol⟩ : StreamState) aid =
      (.error (.WebSocketError "Not connected"), ⟨false, subs, conn, vol⟩) ∧
    unsubscribe_ticker accept (⟨false, subs, conn, vol⟩ : StreamState) tid
        topics =
      (.error (.WebSocketError "Not connected"), ⟨false, subs, conn, vol⟩) ∧
    unsubscribe_all accept (⟨false, subs, conn, vol⟩ : StreamState) =
      (.error (.WebSocketError "Not connected"), ⟨false, subs, conn, vol⟩) :=
  ⟨rfl, rfl, rfl, rfl⟩

/-! Helper lemmas about the paper order gateway. -/

/-- A successfully parsed paper order carries the normalized form of the
wire status of its JSON source, and its order id is the decimal rendering
of the integer `orderId` field. -/
theorem parse_paper_order_ok (now : Int) (v : Json) (o : Order)
    (hp : parse_paper_order now v = .ok o) :
    o.status = parsePaperStatusMatch ((v.get "status").bind Json.as_str) ∧
    ((v.get "orderId").bind Json.as_i64).map toString = some o.order_id := by
  unfold parse_paper_order at hp
  rcases h1 : (v.get "orderId").bind Json.as_i64 with _ | oid <;>
    simp only [h1] at hp
  · cases hp
  rcases h2 : v.get "ticker" with _ | tj <;> simp only [h2] at hp
  · cases hp
  rcases h3 : parseTicker tj with e | tk <;> simp only [h3] at hp
  · cases hp
  split at hp
  · cases hp
  · split at hp
    · cases hp
    · cases hp
      exact ⟨rfl, rfl⟩

/-- Parsing an entry whose wire status is `Working` yields an order in the
normalized Working state. -/
theorem parse_working_status (now : Int) (v : Json) (o : Order)
    (hw : isWorkingEntry v = true) (hp : parse_paper_order now v = .ok o) :
    o.status = OrderStatus.Working := by
  have hs : (v.get "status").bind Json.as_str = some "Working" := by
    simpa [isWorkingEntry] using hw
  rw [(parse_paper_order_ok now v o hp).1, hs]
  rfl

/-- The per-entry projection applied by `paper_get_orders`. -/
def workingProj (now : Int) (v : Json) : Option Order :=
  if isWorkingEntry v then (parse_paper_order now v).toOption else none

/-- The order id of a history entry with wire status `Working`, rendered as
`parse_paper_order` renders it. -/
def workingIdProj (v : Json) : Option String :=
  if isWorkingEntry v then ((v.get "orderId").bind Json.as_i64).map toString
  else none

/-- When every `Working` entry of a history list parses, the projection
kept by `paper_get_orders` returns one order per `Working` entry, and the
returned order ids are exactly the ids of the `Working` entries in order. -/
theorem filterMap_working_lists (now : Int) (l : List Json)
    (hp : ∀ v ∈ l, isWorkingEntry v = true →
      (parse_paper_order now v).isOk = true) :
    (l.filterMap (workingProj now)).length =
      (l.filter isWorkingEntry).length ∧
    (l.filterMap (workingProj now)).map Order.order_id =
      l.filterMap workingIdProj := by
  induction l with
  | nil => exact ⟨rfl, rfl⟩
  | cons v rest ih =>
      have hrest := ih (fun w hw hww => hp w (List.mem_cons_of_mem _ hw) hww)
      by_cases hw : isWorkingEntry v
      · have hok := hp v (List.mem_cons_self _ _) hw
        rcases ho : parse_paper_order now v with e | o
        · rw [ho] at hok; cases hok
        · have h1 : workingProj now v = some o := by
            simp [workingProj, hw, ho, Except.toOption]
          have h2 : workingIdProj v = some o.order_id := by
            simp only [workingIdProj, hw, if_true,
              (parse_paper_order_ok now v o ho).2]
          rw [List.filterMap_cons, List.filterMap_cons, List.filter_cons,
            h1, h2]
          simp [hw, hrest.1, hrest.2]
      · have h1 : workingProj now v = none := by simp [workingProj, hw]
        have h2 : workingIdProj v = none := by simp [workingIdProj, hw]
        rw [List.filterMap_cons, List.filterMap_cons, List.filter_cons,
          h1, h2]
        simp [hw, hrest.1, hrest.2]

/-- `paper_get_orders` on a history whose body is a JSON array is the
`workingProj` projection of that array. -/
theorem paper_get_orders_eq (now : Int) (history : Json) (arr : List Json)
    (ha : history.as_array = some arr) :
    paper_get_orders now history = arr.filterMap (workingProj now) := by
  unfold paper_get_orders
  rw [ha]
  rfl

/-- Claim C2: for a paper account, `get_orders` filters the fetched order
history client-side for wire status `Working`: whenever every `Working`
entry of the history parses, it returns one order per `Working` entry,
every returned order is in the normalized Working state, and the returned
order ids are exactly the ids of the `Working` entries, in history order.
In particular a history with three `Working` orders yields exactly those
three. -/
theorem paper_get_orders_working (now : Int) (history : Json)
    (arr : List Json) (ha : history.as_array = some arr)
    (hp : ∀ v ∈ arr, isWorkingEntry v = true →
      (parse_paper_order now v).isOk = true) :
    (paper_get_orders now history).length =
      (arr.filter isWorkingEntry).length ∧
    (∀ o ∈ paper_get_orders now history, o.status = OrderStatus.Working) ∧
    (paper_get_orders now history).map Order.order_id =
      arr.filterMap workingIdProj := by
  rw [paper_get_orders_eq now history arr ha]
  refine ⟨(filterMap_working_lists now arr hp).1, ?_,
    (filterMap_working_lists now arr hp).2⟩
  intro o ho
  rcases List.mem_filterMap.mp ho with ⟨v, hv, hvo⟩
  by_cases hw : isWorkingEntry v
  · rw [workingProj, if_pos hw] at hvo
    rcases hoo : parse_paper_order now v with e | o2 <;>
      rw [hoo] at hvo <;> simp [Except.toOption] at hvo
    rw [← hvo]
    exact parse_working_status now v o2 hw hoo
  · rw [workingProj, if_neg hw] at hvo
    cases hvo

/-- Witness for claim C2: the concrete four-entry history `histEx` (three
`Working` orders with ids 1, 2, 3 and one `Filled` order) satisfies both
hypotheses, and `paper_get_orders` returns exactly the three Working
orders. -/
theorem paper_get_orders_working_witness :
    (histEx.as_array = some histArrEx ∧
     ∀ v ∈ histArrEx, isWorkingEntry v = true →
       (parse_paper_order 0 v).isOk = true) ∧
    ((paper_get_orders 0 histEx).length =
       (histArrEx.filter isWorkingEntry).length ∧
     (∀ o ∈ paper_get_orders 0 histEx, o.status = OrderStatus.Working) ∧
     (paper_get_orders 0 histEx).map Order.order_id =
       histArrEx.filterMap workingIdProj) :=
  ⟨⟨rfl, by decide⟩, paper_get_orders_working 0 histEx histArrEx rfl
    (by decide)⟩

/-- Claim C3 (counterexample): the paper client performs no trade-token
check - with a resolved paper account and no trade token held,
`place_order` proceeds to build and post the payload instead of failing
with `TradeTokenNotAvailable`. -/
theorem paper_place_order_no_token_check_cex :
    (paper_place_order "u" (some "11111111") none orderEx).isOk = true :=
  rfl

/-- Claim C3 (amended): in the live client `place_order` fails with
`AccountNotFound` when no account is resolved and, once an account is
resolved, with `TradeTokenNotAvailable` when no trade token is held; the
paper client fails with `AccountNotFound` when no paper account is
resolved, but performs no trade-token check and proceeds without one. -/
theorem place_order_preconditions (uuid aid : String) (tt : Option String)
    (order : PlaceOrderRequest) :
    live_place_order uuid none tt order = .error .AccountNotFound ∧
    live_place_order uuid (some aid) none order =
      .error .TradeTokenNotAvailable ∧
    paper_place_order uuid none tt order = .error .AccountNotFound ∧
    (paper_place_order uuid (some aid) none order).isOk = true :=
  ⟨rfl, rfl, rfl, rfl⟩

/-- Claim C5 (counterexample): `parse_paper_order` silently maps the
unrecognized wire status string `PendingCancel` to the Working state
through its catch-all arm. -/
theorem parse_status_unrecognized_is_working_cex :
    parsePaperStatusMatch (some "PendingCancel") = OrderStatus.Working :=
  rfl

/-- Claim C5 (amended): order-status normalization maps every wire string
onto the fixed enumeration, but in `parse_paper_order` an unrecognized
wire status string silently defaults to Working through the catch-all
match arm, while the serde-derived deserializer for `OrderStatus` rejects
every unrecognized string instead of mapping it. -/
theorem order_status_normalization (s : String) :
    (s ∉ (["Working", "Filled", "Canceled", "Cancelled", "PartiallyFilled",
           "Partial Filled", "Pending", "Failed"] : List String) →
      parsePaperStatusMatch (some s) = OrderStatus.Working) ∧
    (s ∉ (["Working", "Pending", "Submitted", "PartialFilled", "Filled",
           "Cancelled", "Failed", "Rejected"] : List String) →
      orderStatusFromWire s = none) := by
  constructor
  · intro h
    simp only [List.mem_cons, List.not_mem_nil, or_false, not_or] at h
    unfold parsePaperStatusMatch
    split <;> simp_all
  · intro h
    simp only [List.mem_cons, List.not_mem_nil, or_false, not_or] at h
    unfold orderStatusFromWire
    split <;> simp_all

/-- Witness for claim C5: the unrecognized status string `Bogus` is in
neither recognized list; `parse_paper_order` normalizes it to Working and
the serde path rejects it. -/
theorem order_status_normalization_witness :
    ("Bogus" ∉ (["Working", "Filled", "Canceled", "Cancelled",
        "PartiallyFilled", "Partial Filled", "Pending", "Failed"] :
        List String) ∧
     "Bogus" ∉ (["Working", "Pending", "Submitted", "PartialFilled",
        "Filled", "Cancelled", "Failed", "Rejected"] : List String)) ∧
    parsePaperStatusMatch (some "Bogus") = OrderStatus.Working ∧
    orderStatusFromWire "Bogus" = none :=
  ⟨⟨by decide, by decide⟩,
   (order_status_normalization "Bogus").1 (by decide),
   (order_status_normalization "Bogus").2 (by decide)⟩

/-- Claim C6 (counterexample): the serde-derived normalization path rejects
the wire status string `Canceled` (only `Cancelled` carries a serde
rename), so not every normalization path maps `Canceled` to the Cancelled
state. -/
theorem serde_canceled_rejected_cex :
    orderStatusFromWire "Canceled" = none :=
  rfl

/-- Claim C6 (amended): `parse_paper_order` normalizes both `Canceled` and
`Cancelled` to the same Cancelled state; the serde-derived deserializer
for `OrderStatus` accepts only `Cancelled` and fails on `Canceled`. -/
theorem canceled_spelling_normalization :
    parsePaperStatusMatch (some "Canceled") = OrderStatus.Cancelled ∧
    parsePaperStatusMatch (some "Cancelled") = OrderStatus.Cancelled ∧
    orderStatusFromWire "Cancelled" = some OrderStatus.Cancelled ∧
    orderStatusFromWire "Canceled" = none :=
  ⟨rfl, rfl, rfl, rfl⟩

/-- Claim C7: for every builder state, `build` rejects a Limit order
without a limit price, a Stop order without a stop price, and a StopLimit
order missing either price, while a Market order with the required fields
present and neither price set builds successfully. -/
theorem build_price_validation (tid : Option Int) (act : Option OrderAction)
    (tif : TimeInForce) (q lp sp : Option Rat) (orth : Bool)
    (sid ct : Option String) :
    (PlaceOrderRequestBuilder.build
        ⟨tid, act, .Limit, tif, q, none, sp, orth, sid, ct⟩).isOk = false ∧
    (PlaceOrderRequestBuilder.build
        ⟨tid, act, .Stop, tif, q, lp, none, orth, sid, ct⟩).isOk = false ∧
    (PlaceOrderRequestBuilder.build
        ⟨tid, act, .StopLimit, tif, q, none, sp, orth, sid, ct⟩).isOk =
      false ∧
    (PlaceOrderRequestBuilder.build
        ⟨tid, act, .StopLimit, tif, q, lp, none, orth, sid, ct⟩).isOk =
      false ∧
    (∀ (ti : Int) (a : OrderAction) (q0 : Rat),
      (PlaceOrderRequestBuilder.build
          ⟨some ti, some a, .Market, tif, some q0, none, none, orth, sid,
           ct⟩).isOk = true) := by
  refine ⟨?_, ?_, ?_, ?_, fun ti a q0 => rfl⟩ <;>
    (cases tid <;> cases act <;> cases q <;> first | rfl | (cases lp <;> rfl))

/-- Claim C9 (counterexample): when the server does not acknowledge the
logout (non-success HTTP status), the session fields are NOT cleared - the
access token survives - and `false` is returned, contradicting a clear
regardless of the server response. -/
theorem logout_failure_keeps_session_cex :
    (logout false sessionEx).1 = sessionEx ∧
    (logout false sessionEx).1.access_token = some "tok" ∧
    (logout false sessionEx).2 = false :=
  ⟨rfl, rfl, rfl⟩

/-- Claim C9 (amended): `logout` clears all session fields if and only if
the server acknowledged with a success status - the response body is never
read - returning true exactly on acknowledgement; on a non-success status
every session field is left unchanged and false is returned. -/
theorem logout_clears_iff_acknowledged (st : SessionState) :
    logout true st =
      ({ access_token := none, refresh_token := none, trade_token := none,
         account_id := none, token_expire := none, uuid := none }, true) ∧
    logout false st = (st, false) :=
  ⟨rfl, rfl⟩

end Webull
